import Mathlib

/-!
Verification of the Mangum adapter (src/mangum/adapter.py) against its
natural-language specification.

The adapter module is shallowly embedded: the `Mangum` structure mirrors the
adapter configuration, `Mangum.init` mirrors `Mangum.__init__` (validation of
the lifespan mode and of the connect/disconnect hooks), and `Mangum.call`
mirrors `Mangum.__call__` (the lifespan scope via `ExitStack`, trigger
classification, the branch on the request variant, and the final response
transformation).

The collaborators that live outside the adapter module (the handler
classification in src/mangum/handlers, the three protocol cycles in
src/mangum/protocols, and the `WebSocket` backend in src/mangum/backends) are
modelled from the spec at their interface boundary, as the spec itself treats
them.  An `Env` value supplies the opaque outcomes owned by the application
(startup handshake success, HTTP cycle outcome, WebSocket cycle outcome), and
`Mangum.call` returns both a trace of observable protocol events and the
invocation result, so that ordering claims can be stated about the trace.
-/

/-- Exception taxonomy of the adapter.  `configurationError` mirrors
`mangum.exceptions.ConfigurationError`; `plainException` mirrors a bare Python
`Exception`; `lifespanFailure` mirrors the fatal lifespan startup error;
`appError` stands for an arbitrary exception escaping an HTTP/WebSocket
cycle. -/
inductive Err
  | configurationError (msg : String)
  | plainException (msg : String)
  | lifespanFailure (msg : String)
  | appError (msg : String)
deriving DecidableEq, Repr

/-- A Python value as the hook checks observe it: its truthiness and whether
`callable` holds of it.  `None` is falsy and not callable. -/
structure PyVal where
  truthy : Bool
  callable : Bool
deriving DecidableEq, Repr

/-- The Python value `None` seen through `PyVal`. -/
def pyNone : PyVal := ⟨false, false⟩

/-- Structured cycle response: status, ordered headers, body, encoding flag. -/
structure Response where
  statusCode : Nat
  headers : List (String × String)
  body : String
  isBase64Encoded : Bool
deriving DecidableEq, Repr

/-- Vendor-specific reply shape produced by `handler.transform_response`;
kept opaque as a bag of fields. -/
structure VendorResponse where
  fields : List (String × String)
deriving DecidableEq, Repr

/-- The classified canonical request: the adapter only inspects which variant
it is (`isinstance(request, WsRequest)` in `Mangum.__call__`). -/
inductive CanonicalRequest
  | ws (connectionId : String)
  | http (path : String)
deriving DecidableEq, Repr

/-- The handler object returned by `AbstractHandler.from_trigger`: the fields
of it that `Mangum.__call__` reads (`request`, `body`, `message_type`,
`connection_id`, `api_gateway_endpoint_url`, `transform_response`). -/
structure Handler where
  request : CanonicalRequest
  body : String
  message_type : String
  connection_id : String
  api_gateway_endpoint_url : String
  transform_response : Response → VendorResponse

/-- A raw trigger event, abstracted to what classification observes: either a
shape recognized as some handler, or an unrecognized shape. -/
inductive RawEvent
  | recognized (h : Handler)
  | unrecognized (shape : String)

/-- Modelled from the spec: `AbstractHandler.from_trigger`
(src/mangum/handlers, not under src/).  "Classifies rawEvent into a
CanonicalRequest.  Unrecognized shapes fail with ConfigurationError (fatal,
surfaced to caller - no retry)." -/
def AbstractHandler.from_trigger : RawEvent → Except Err Handler
  | RawEvent.recognized h => Except.ok h
  | RawEvent.unrecognized _ =>
      Except.error (Err.configurationError "Unable to determine handler from trigger event")

/-- Observable protocol events recorded by one invocation, in order. -/
inductive TraceEv
  | startupSignal
  | shutdownSignal
  | wsBackendInit (api_gateway_endpoint_url : String)
  | wsCycleRun (message_type : String) (connection_id : String) (body : String)
  | httpCycleRun (body : String)
deriving DecidableEq, Repr

/-- Python `a or b` on an `Optional[str]`: `None` and the empty string are
falsy, so both fall through to `b`. -/
def pyOrStr : Option String → String → String
  | none, b => b
  | some s, b => if s = "" then b else s

/-- The `WebSocket` backend handle after construction. -/
structure WebSocket where
  dsn : String
  api_gateway_endpoint_url : String
  api_gateway_region_name : Option String
  connect_hook : PyVal
  disconnect_hook : PyVal
deriving DecidableEq, Repr

/-- Modelled from the spec: the `WebSocket` backend constructor
(src/mangum/backends, not under src/).  "Configuration identifies which
backend implementation and endpoint to use; absence of required configuration
for a WebSocket trigger is a fatal configuration error." -/
def WebSocket.create (dsn : Option String) (api_gateway_endpoint_url : String)
    (api_gateway_region_name : Option String) (connect_hook : PyVal)
    (disconnect_hook : PyVal) : Except Err WebSocket :=
  match dsn with
  | none =>
      Except.error
        (Err.configurationError "A dsn connection string is required to configure a WebSocket backend")
  | some d =>
      Except.ok ⟨d, api_gateway_endpoint_url, api_gateway_region_name, connect_hook,
        disconnect_hook⟩

/-- Modelled from the spec: entering the `LifespanCycle` context manager
(src/mangum/protocols, not under src/).  "On scope entry: sends a startup
signal through the long-lived protocol and blocks until the application
acknowledges startup-complete or startup-failed"; "Mode auto:
startup/shutdown failures are logged and swallowed"; "Mode on: startup
failure is fatal and aborts the invocation before any cycle runs."  Returns
the events emitted and whether entry raised. -/
def LifespanCycle.enter (mode : String) (startupOk : Bool) :
    List TraceEv × Except Err Unit :=
  ([TraceEv.startupSignal],
   if startupOk then Except.ok ()
   else if mode = "on" then Except.error (Err.lifespanFailure "Lifespan failure in startup.")
   else Except.ok ())

/-- Modelled from the spec: exiting the `LifespanCycle` context manager.  "On
scope exit: sends a shutdown signal and waits for acknowledgement with the
same timeout policy; errors here are logged, never override the primary
response." -/
def LifespanCycle.exitEvents : List TraceEv := [TraceEv.shutdownSignal]

/-- The adapter configuration held by a validated `Mangum` instance
(src/mangum/adapter.py, class attributes of `Mangum`).  The opaque ASGI app
itself is not stored; its observable behaviour is supplied per invocation by
`Env`. -/
structure Mangum where
  lifespan : String
  dsn : Option String
  api_gateway_endpoint_url : Option String
  api_gateway_region_name : Option String
  connect_hook : PyVal
  disconnect_hook : PyVal
deriving DecidableEq, Repr

/-- `Mangum.__init__` (src/mangum/adapter.py, lines 62-91): stores the
configuration, then raises `ConfigurationError` for a lifespan mode outside
auto|on|off, then raises a plain `Exception` for a truthy non-callable
connect or disconnect hook. -/
def Mangum.init (lifespan : String) (dsn : Option String)
    (api_gateway_endpoint_url : Option String)
    (api_gateway_region_name : Option String) (connect_hook : PyVal)
    (disconnect_hook : PyVal) : Except Err Mangum :=
  if lifespan = "auto" ∨ lifespan = "on" ∨ lifespan = "off" then
    if connect_hook.truthy && !connect_hook.callable then
      Except.error (Err.plainException "Invalid connect_hook supplied. Must be a callable")
    else if disconnect_hook.truthy && !disconnect_hook.callable then
      Except.error (Err.plainException "Invalid disconnect_hook supplied. Must be callable")
    else
      Except.ok
        ⟨lifespan, dsn, api_gateway_endpoint_url, api_gateway_region_name, connect_hook,
          disconnect_hook⟩
  else
    Except.error
      (Err.configurationError "Invalid argument supplied for lifespan. Choices are: auto|on|off")

/-- Per-invocation behaviour of the opaque collaborators: the raw trigger
event, whether the application acknowledges lifespan startup, and the
outcomes of running `HTTPCycle(request)(app, body)` and
`WebSocketCycle(...)(app, body)` (the cycle internals live in
src/mangum/protocols, not under src/). -/
structure Env where
  event : RawEvent
  startupOk : Bool
  httpResult : Except Err Response
  wsResult : Except Err Response

/-- Applies `handler.transform_response` to a successful cycle outcome and
propagates a cycle exception unchanged (src/mangum/adapter.py, line 125). -/
def finishResponse : Except Err (Handler × Response) → Except Err VendorResponse
  | Except.error e => Except.error e
  | Except.ok hr => Except.ok (hr.1.transform_response hr.2)

/-- The body of the `with ExitStack()` block of `Mangum.__call__`
(src/mangum/adapter.py, lines 101-123): classify the trigger, then branch on
the request variant; a `WsRequest` builds the `WebSocket` backend handle
(endpoint resolved by Python `or`) and runs the WebSocket cycle, any other
request runs the HTTP cycle.  Returns the events emitted and the handler
paired with the cycle outcome. -/
def Mangum.dispatch (m : Mangum) (env : Env) :
    List TraceEv × Except Err (Handler × Response) :=
  match AbstractHandler.from_trigger env.event with
  | Except.error e => ([], Except.error e)
  | Except.ok handler =>
    match handler.request with
    | CanonicalRequest.ws _ =>
      let endpoint := pyOrStr m.api_gateway_endpoint_url handler.api_gateway_endpoint_url
      match WebSocket.create m.dsn endpoint m.api_gateway_region_name m.connect_hook
          m.disconnect_hook with
      | Except.error e => ([TraceEv.wsBackendInit endpoint], Except.error e)
      | Except.ok _ =>
          ([TraceEv.wsBackendInit endpoint,
            TraceEv.wsCycleRun handler.message_type handler.connection_id handler.body],
           env.wsResult.map fun r => (handler, r))
    | CanonicalRequest.http _ =>
        ([TraceEv.httpCycleRun handler.body], env.httpResult.map fun r => (handler, r))

/-- `Mangum.__call__` (src/mangum/adapter.py, lines 93-125).  When the
lifespan mode is not "off" the lifespan cycle is entered on the `ExitStack`
before anything else; if entry raises, the stack holds no context manager and
the error propagates with no shutdown.  Otherwise the dispatch body runs and,
whatever its outcome, the stack exit sends the shutdown signal before
`handler.transform_response` produces the returned value. -/
def Mangum.call (m : Mangum) (env : Env) :
    List TraceEv × Except Err VendorResponse :=
  if m.lifespan = "off" then
    ((m.dispatch env).1, finishResponse (m.dispatch env).2)
  else
    match (LifespanCycle.enter m.lifespan env.startupOk).2 with
    | Except.error e => ((LifespanCycle.enter m.lifespan env.startupOk).1, Except.error e)
    | Except.ok _ =>
        ((LifespanCycle.enter m.lifespan env.startupOk).1 ++ (m.dispatch env).1 ++
            LifespanCycle.exitEvents,
         finishResponse (m.dispatch env).2)

/-! Concrete fixtures used by the witness theorems. -/

/-- A successful cycle response used by witnesses. -/
def vOk : Response := ⟨200, [("content-type", "application/json")], "hello", false⟩

/-- A concrete response transformation used by witnesses. -/
def tfFix : Response → VendorResponse :=
  fun r => ⟨[("statusCode", toString r.statusCode), ("body", r.body)]⟩

/-- A concrete handler carrying an HTTP request. -/
def hHttpFix : Handler :=
  ⟨CanonicalRequest.http "/", "reqbody", "", "", "wss://derived.example", tfFix⟩

/-- A concrete handler carrying a WebSocket request. -/
def hWsFix : Handler :=
  ⟨CanonicalRequest.ws "abc", "frame", "MESSAGE", "abc", "wss://derived.example", tfFix⟩

/-- Adapter fixture with lifespan "off". -/
def mOffFix : Mangum := ⟨"off", some "sqlite://conn", none, none, pyNone, pyNone⟩

/-- Adapter fixture with lifespan "auto". -/
def mAutoFix : Mangum := ⟨"auto", some "sqlite://conn", none, none, pyNone, pyNone⟩

/-- Adapter fixture with lifespan "on". -/
def mOnFix : Mangum := ⟨"on", some "sqlite://conn", none, none, pyNone, pyNone⟩

/-- Adapter fixture with no dsn configured. -/
def mNoDsnFix : Mangum := ⟨"auto", none, none, none, pyNone, pyNone⟩

/-- Environment fixture delivering an HTTP trigger with a successful cycle. -/
def envHttpFix : Env :=
  ⟨RawEvent.recognized hHttpFix, true, Except.ok vOk, Except.error (Err.appError "unused")⟩

/-- Environment fixture delivering a WebSocket trigger with a successful
cycle. -/
def envWsFix : Env :=
  ⟨RawEvent.recognized hWsFix, true, Except.error (Err.appError "unused"), Except.ok vOk⟩

/-- Environment fixture delivering an unclassifiable trigger. -/
def envBadFix : Env :=
  ⟨RawEvent.unrecognized "s3", true, Except.ok vOk, Except.ok vOk⟩

/-- Environment fixture in which the application fails lifespan startup and
the HTTP cycle raises. -/
def envFailFix : Env :=
  ⟨RawEvent.recognized hHttpFix, false, Except.error (Err.appError "boom"), Except.ok vOk⟩

/-- Adapter fixture configured with an empty api_gateway_endpoint_url. -/
def mEmptyUrlFix : Mangum := ⟨"off", some "sqlite://conn", some "", none, pyNone, pyNone⟩

/-- Adapter fixture configured with a non-empty api_gateway_endpoint_url. -/
def mCfgUrlFix : Mangum :=
  ⟨"off", some "sqlite://conn", some "https://cfg.example", none, pyNone, pyNone⟩

/-! Helper lemmas shared by the claim theorems. -/

/-- Unfolding of `Mangum.call` when the lifespan mode is "off". -/
theorem Mangum.call_off (m : Mangum) (env : Env) (hoff : m.lifespan = "off") :
    m.call env = ((m.dispatch env).1, finishResponse (m.dispatch env).2) := by
  simp [Mangum.call, hoff]

/-- The lifespan entry always emits exactly the startup signal. -/
theorem LifespanCycle.enter_fst (mode : String) (startupOk : Bool) :
    (LifespanCycle.enter mode startupOk).1 = [TraceEv.startupSignal] := rfl

/-- Unfolding of `Mangum.call` when the lifespan mode is not "off" and entry
into the lifespan cycle succeeds. -/
theorem Mangum.call_enter_ok (m : Mangum) (env : Env) (hoff : m.lifespan ≠ "off")
    (hok : (LifespanCycle.enter m.lifespan env.startupOk).2 = Except.ok ()) :
    m.call env =
      ([TraceEv.startupSignal] ++ (m.dispatch env).1 ++ LifespanCycle.exitEvents,
       finishResponse (m.dispatch env).2) := by
  simp [Mangum.call, hoff, hok, LifespanCycle.enter_fst]

/-- Unfolding of `Mangum.call` when the lifespan mode is not "off" and entry
into the lifespan cycle raises. -/
theorem Mangum.call_enter_error (m : Mangum) (env : Env) (e : Err)
    (hoff : m.lifespan ≠ "off")
    (herr : (LifespanCycle.enter m.lifespan env.startupOk).2 = Except.error e) :
    m.call env = ([TraceEv.startupSignal], Except.error e) := by
  simp [Mangum.call, hoff, herr, LifespanCycle.enter_fst]

/-- Unfolding of `Mangum.dispatch` on an unrecognized trigger. -/
theorem Mangum.dispatch_unrecognized (m : Mangum) (env : Env) (s : String)
    (hev : env.event = RawEvent.unrecognized s) :
    m.dispatch env =
      ([], Except.error
        (Err.configurationError "Unable to determine handler from trigger event")) := by
  simp [Mangum.dispatch, hev, AbstractHandler.from_trigger]

/-- Unfolding of `Mangum.dispatch` on an HTTP trigger. -/
theorem Mangum.dispatch_http (m : Mangum) (env : Env) (h : Handler) (p : String)
    (hev : env.event = RawEvent.recognized h) (hr : h.request = CanonicalRequest.http p) :
    m.dispatch env =
      ([TraceEv.httpCycleRun h.body], env.httpResult.map fun r => (h, r)) := by
  simp [Mangum.dispatch, hev, AbstractHandler.from_trigger, hr]

/-- Unfolding of `Mangum.dispatch` on a WebSocket trigger when the backend
constructor succeeds. -/
theorem Mangum.dispatch_ws_ok (m : Mangum) (env : Env) (h : Handler) (c : String)
    (w : WebSocket) (hev : env.event = RawEvent.recognized h)
    (hr : h.request = CanonicalRequest.ws c)
    (hw : WebSocket.create m.dsn (pyOrStr m.api_gateway_endpoint_url h.api_gateway_endpoint_url)
        m.api_gateway_region_name m.connect_hook m.disconnect_hook = Except.ok w) :
    m.dispatch env =
      ([TraceEv.wsBackendInit (pyOrStr m.api_gateway_endpoint_url h.api_gateway_endpoint_url),
        TraceEv.wsCycleRun h.message_type h.connection_id h.body],
       env.wsResult.map fun r => (h, r)) := by
  simp [Mangum.dispatch, hev, AbstractHandler.from_trigger, hr, hw]

/-- Unfolding of `Mangum.dispatch` on a WebSocket trigger when the backend
constructor raises. -/
theorem Mangum.dispatch_ws_error (m : Mangum) (env : Env) (h : Handler) (c : String)
    (e : Err) (hev : env.event = RawEvent.recognized h)
    (hr : h.request = CanonicalRequest.ws c)
    (hw : WebSocket.create m.dsn (pyOrStr m.api_gateway_endpoint_url h.api_gateway_endpoint_url)
        m.api_gateway_region_name m.connect_hook m.disconnect_hook = Except.error e) :
    m.dispatch env =
      ([TraceEv.wsBackendInit (pyOrStr m.api_gateway_endpoint_url h.api_gateway_endpoint_url)],
       Except.error e) := by
  simp [Mangum.dispatch, hev, AbstractHandler.from_trigger, hr, hw]

/-- Commutation of `finishResponse` with the pairing map used in dispatch. -/
theorem finishResponse_map (h : Handler) (x : Except Err Response) :
    finishResponse (x.map fun r => (h, r)) = x.map h.transform_response := by
  cases x <;> rfl

/-! Claim theorems. -/

/-- C10: the default text MIME allow-list used for the binary/text response
classification consists of exactly the prefix "text/" and the types
"application/json", "application/javascript", "application/xml" and
"application/vnd.api+json", in that order (src/mangum/adapter.py, lines
23-29). -/
def DEFAULT_TEXT_MIME_TYPES : List String :=
  ["text/", "application/json", "application/javascript", "application/xml",
   "application/vnd.api+json"]

/-- C10: `DEFAULT_TEXT_MIME_TYPES` is exactly the five-element list of the
claim, in that order. -/
theorem default_text_mime_types_exact :
    DEFAULT_TEXT_MIME_TYPES =
      ["text/", "application/json", "application/javascript", "application/xml",
       "application/vnd.api+json"] := rfl

/-- C6: constructing the adapter with a lifespan argument outside
auto|on|off raises `ConfigurationError` at construction time, whatever the
other arguments are, so no event is ever handled and no cycle ever runs on
such an instance. -/
theorem init_invalid_lifespan_rejected (lifespan : String) (dsn : Option String)
    (url : Option String) (region : Option String) (ch : PyVal) (dh : PyVal)
    (hbad : lifespan ≠ "auto" ∧ lifespan ≠ "on" ∧ lifespan ≠ "off") :
    Mangum.init lifespan dsn url region ch dh =
      Except.error
        (Err.configurationError
          "Invalid argument supplied for lifespan. Choices are: auto|on|off") := by
  obtain ⟨h1, h2, h3⟩ := hbad
  simp [Mangum.init, h1, h2, h3]

/-- C6 witness: the lifespan string "invalid" is rejected. -/
theorem init_invalid_lifespan_rejected_witness :
    ("invalid" ≠ "auto" ∧ "invalid" ≠ "on" ∧ "invalid" ≠ "off") ∧
    Mangum.init "invalid" none none none pyNone pyNone =
      Except.error
        (Err.configurationError
          "Invalid argument supplied for lifespan. Choices are: auto|on|off") :=
  ⟨by decide,
   init_invalid_lifespan_rejected "invalid" none none none pyNone pyNone (by decide)⟩

/-- C9: with a valid lifespan mode, a truthy non-callable connect_hook is
rejected with a plain `Exception` (not a `ConfigurationError`); a truthy
non-callable disconnect_hook likewise; and omitting both hooks (passing
`None`) is accepted. -/
theorem init_hook_validation (lifespan : String) (dsn : Option String)
    (url : Option String) (region : Option String) (ch : PyVal) (dh : PyVal)
    (hls : lifespan = "auto" ∨ lifespan = "on" ∨ lifespan = "off") :
    (ch.truthy = true → ch.callable = false →
      Mangum.init lifespan dsn url region ch dh =
        Except.error (Err.plainException "Invalid connect_hook supplied. Must be a callable")) ∧
    (dh.truthy = true → dh.callable = false → (ch.truthy = false ∨ ch.callable = true) →
      Mangum.init lifespan dsn url region ch dh =
        Except.error (Err.plainException "Invalid disconnect_hook supplied. Must be callable")) ∧
    Mangum.init lifespan dsn url region pyNone pyNone =
      Except.ok ⟨lifespan, dsn, url, region, pyNone, pyNone⟩ := by
  refine ⟨?_, ?_, ?_⟩
  · intro hct hcc
    simp [Mangum.init, hls, hct, hcc]
  · intro hdt hdc hc
    rcases hc with hc | hc <;> simp [Mangum.init, hls, hdt, hdc, hc]
  · simp [Mangum.init, hls, pyNone]

/-- C9 witness: a truthy non-callable connect_hook raises the plain
exception, and passing `None` for both hooks is accepted. -/
theorem init_hook_validation_witness :
    Mangum.init "auto" none none none ⟨true, false⟩ pyNone =
      Except.error (Err.plainException "Invalid connect_hook supplied. Must be a callable") ∧
    Mangum.init "auto" none none none pyNone pyNone =
      Except.ok ⟨"auto", none, none, none, pyNone, pyNone⟩ :=
  ⟨(init_hook_validation "auto" none none none ⟨true, false⟩ pyNone (Or.inl rfl)).1 rfl rfl,
   (init_hook_validation "auto" none none none pyNone pyNone (Or.inl rfl)).2.2⟩

/-- C1: whenever the trigger classifies and the invocation reaches the
dispatch body (lifespan mode "off", or lifespan entry succeeded), the
Dispatcher branches purely on the request variant: a WebSocket request builds
the backend handle and runs the WebSocket cycle (and no HTTP cycle), any
other request runs the HTTP cycle (and no WebSocket cycle), and in both
cases the returned value is the cycle outcome translated by
`handler.transform_response`. -/
theorem call_branches_on_request_variant (m : Mangum) (env : Env) (h : Handler)
    (hev : env.event = RawEvent.recognized h)
    (hlife : m.lifespan = "off" ∨
      (LifespanCycle.enter m.lifespan env.startupOk).2 = Except.ok ()) :
    (∀ c, h.request = CanonicalRequest.ws c →
      ∀ w, WebSocket.create m.dsn
          (pyOrStr m.api_gateway_endpoint_url h.api_gateway_endpoint_url)
          m.api_gateway_region_name m.connect_hook m.disconnect_hook = Except.ok w →
        TraceEv.wsBackendInit (pyOrStr m.api_gateway_endpoint_url h.api_gateway_endpoint_url)
            ∈ (m.call env).1 ∧
        TraceEv.wsCycleRun h.message_type h.connection_id h.body ∈ (m.call env).1 ∧
        (∀ b, TraceEv.httpCycleRun b ∉ (m.call env).1) ∧
        (m.call env).2 = env.wsResult.map h.transform_response) ∧
    (∀ p, h.request = CanonicalRequest.http p →
      TraceEv.httpCycleRun h.body ∈ (m.call env).1 ∧
      (∀ t c b, TraceEv.wsCycleRun t c b ∉ (m.call env).1) ∧
      (m.call env).2 = env.httpResult.map h.transform_response) := by
  constructor
  · intro c hr w hw
    have hd := Mangum.dispatch_ws_ok m env h c w hev hr hw
    rcases hlife with hoff | hok
    · rw [Mangum.call_off m env hoff, hd, finishResponse_map]
      refine ⟨by simp, by simp, ?_, rfl⟩
      intro b
      simp
    · by_cases hoff : m.lifespan = "off"
      · rw [Mangum.call_off m env hoff, hd, finishResponse_map]
        refine ⟨by simp, by simp, ?_, rfl⟩
        intro b
        simp
      · rw [Mangum.call_enter_ok m env hoff hok, hd, finishResponse_map]
        refine ⟨by simp, by simp, ?_, rfl⟩
        intro b
        simp [LifespanCycle.exitEvents]
  · intro p hr
    have hd := Mangum.dispatch_http m env h p hev hr
    rcases hlife with hoff | hok
    · rw [Mangum.call_off m env hoff, hd, finishResponse_map]
      refine ⟨by simp, ?_, rfl⟩
      intro t c b
      simp
    · by_cases hoff : m.lifespan = "off"
      · rw [Mangum.call_off m env hoff, hd, finishResponse_map]
        refine ⟨by simp, ?_, rfl⟩
        intro t c b
        simp
      · rw [Mangum.call_enter_ok m env hoff hok, hd, finishResponse_map]
        refine ⟨by simp, ?_, rfl⟩
        intro t c b
        simp [LifespanCycle.exitEvents]

/-- C1 witness: an HTTP trigger under lifespan "auto" runs the HTTP cycle
and returns its transformed outcome, and a WebSocket trigger runs the
WebSocket cycle and returns its transformed outcome. -/
theorem call_branches_on_request_variant_witness :
    (envHttpFix.event = RawEvent.recognized hHttpFix ∧
      (mAutoFix.call envHttpFix).2 = envHttpFix.httpResult.map hHttpFix.transform_response) ∧
    (envWsFix.event = RawEvent.recognized hWsFix ∧
      (mAutoFix.call envWsFix).2 = envWsFix.wsResult.map hWsFix.transform_response) :=
  ⟨⟨rfl,
    ((call_branches_on_request_variant mAutoFix envHttpFix hHttpFix rfl
        (Or.inr rfl)).2 "/" rfl).2.2⟩,
   ⟨rfl,
    (((call_branches_on_request_variant mAutoFix envWsFix hWsFix rfl
        (Or.inr rfl)).1 "abc" rfl
        ⟨"sqlite://conn", "wss://derived.example", none, pyNone, pyNone⟩ rfl).2.2).2⟩⟩

/-- C2: with lifespan mode not "off", the startup signal is the very first
event of every invocation trace (so it precedes any HTTP or WebSocket cycle),
and on every path on which the lifespan scope was entered (its entry did not
raise) the shutdown signal is the very last event of the trace - in
particular also when the HTTP/WebSocket cycle raises - so the scope is exited
before the Dispatcher returns. -/
theorem call_lifespan_scoped (m : Mangum) (env : Env) (hoff : m.lifespan ≠ "off") :
    (m.call env).1.head? = some TraceEv.startupSignal ∧
    ((LifespanCycle.enter m.lifespan env.startupOk).2 = Except.ok () →
      (m.call env).1.getLast? = some TraceEv.shutdownSignal) := by
  constructor
  · rcases hres : (LifespanCycle.enter m.lifespan env.startupOk).2 with e | u
    · rw [Mangum.call_enter_error m env e hoff hres]
      rfl
    · rw [Mangum.call_enter_ok m env hoff hres]
      rfl
  · intro hok
    rw [Mangum.call_enter_ok m env hoff hok]
    show (([TraceEv.startupSignal] ++ (m.dispatch env).1) ++
        (TraceEv.shutdownSignal :: [])).getLast? = some TraceEv.shutdownSignal
    rw [List.getLast?_append_cons]
    rfl

/-- C2 witness: under lifespan "auto" with a failing startup handshake and a
raising HTTP cycle, the trace still starts with the startup signal and ends
with the shutdown signal. -/
theorem call_lifespan_scoped_witness :
    mAutoFix.lifespan ≠ "off" ∧
    (mAutoFix.call envFailFix).1.head? = some TraceEv.startupSignal ∧
    (mAutoFix.call envFailFix).1.getLast? = some TraceEv.shutdownSignal :=
  ⟨by decide,
   (call_lifespan_scoped mAutoFix envFailFix (by decide)).1,
   (call_lifespan_scoped mAutoFix envFailFix (by decide)).2 rfl⟩

/-- C3: an unclassifiable trigger event makes the invocation fail with the
classification `ConfigurationError`, which is surfaced unchanged to the
caller, and no HTTP or WebSocket cycle runs before (or after) it is raised,
provided the invocation reaches classification at all (lifespan "off" or a
successful lifespan entry). -/
theorem call_unrecognized_event_fails (m : Mangum) (env : Env) (s : String)
    (hev : env.event = RawEvent.unrecognized s)
    (hlife : m.lifespan = "off" ∨
      (LifespanCycle.enter m.lifespan env.startupOk).2 = Except.ok ()) :
    (m.call env).2 =
      Except.error (Err.configurationError "Unable to determine handler from trigger event") ∧
    (∀ b, TraceEv.httpCycleRun b ∉ (m.call env).1) ∧
    (∀ t c b, TraceEv.wsCycleRun t c b ∉ (m.call env).1) := by
  have hd := Mangum.dispatch_unrecognized m env s hev
  rcases hlife with hoff | hok
  · rw [Mangum.call_off m env hoff, hd]
    exact ⟨rfl, fun b => by simp, fun t c b => by simp⟩
  · by_cases hoff : m.lifespan = "off"
    · rw [Mangum.call_off m env hoff, hd]
      exact ⟨rfl, fun b => by simp, fun t c b => by simp⟩
    · rw [Mangum.call_enter_ok m env hoff hok, hd]
      refine ⟨rfl, fun b => ?_, fun t c b => ?_⟩ <;>
        simp [LifespanCycle.exitEvents]

/-- C3 witness: an unrecognized trigger under lifespan "auto" fails with the
classification `ConfigurationError` and runs no HTTP cycle. -/
theorem call_unrecognized_event_fails_witness :
    envBadFix.event = RawEvent.unrecognized "s3" ∧
    (mAutoFix.call envBadFix).2 =
      Except.error (Err.configurationError "Unable to determine handler from trigger event") ∧
    TraceEv.httpCycleRun "reqbody" ∉ (mAutoFix.call envBadFix).1 :=
  ⟨rfl,
   (call_unrecognized_event_fails mAutoFix envBadFix "s3" rfl (Or.inr rfl)).1,
   (call_unrecognized_event_fails mAutoFix envBadFix "s3" rfl (Or.inr rfl)).2.1 "reqbody"⟩

/-- C4: with lifespan mode "off" the lifespan cycle is never entered: no
startup and no shutdown signal ever appears in the invocation trace, whatever
the trigger is and however the HTTP/WebSocket cycle ends. -/
theorem call_lifespan_off_no_signals (m : Mangum) (env : Env)
    (hoff : m.lifespan = "off") :
    TraceEv.startupSignal ∉ (m.call env).1 ∧
    TraceEv.shutdownSignal ∉ (m.call env).1 := by
  rw [Mangum.call_off m env hoff]
  show TraceEv.startupSignal ∉ (m.dispatch env).1 ∧
    TraceEv.shutdownSignal ∉ (m.dispatch env).1
  rcases hev : env.event with h | s
  · rcases hreq : h.request with c | p
    · rcases hw : WebSocket.create m.dsn
          (pyOrStr m.api_gateway_endpoint_url h.api_gateway_endpoint_url)
          m.api_gateway_region_name m.connect_hook m.disconnect_hook with e | w
      · rw [Mangum.dispatch_ws_error m env h c e hev hreq hw]
        constructor <;> simp
      · rw [Mangum.dispatch_ws_ok m env h c w hev hreq hw]
        constructor <;> simp
    · rw [Mangum.dispatch_http m env h p hev hreq]
      constructor <;> simp
  · rw [Mangum.dispatch_unrecognized m env s hev]
    constructor <;> simp

/-- C4 witness: with lifespan "off", a failing startup handshake and a
raising HTTP cycle, neither lifespan signal appears in the trace. -/
theorem call_lifespan_off_no_signals_witness :
    mOffFix.lifespan = "off" ∧
    TraceEv.startupSignal ∉ (mOffFix.call envFailFix).1 ∧
    TraceEv.shutdownSignal ∉ (mOffFix.call envFailFix).1 :=
  ⟨rfl,
   (call_lifespan_off_no_signals mOffFix envFailFix rfl).1,
   (call_lifespan_off_no_signals mOffFix envFailFix rfl).2⟩

/-- C5: with lifespan mode "on" and a failing application startup handshake,
the invocation fails with the lifespan error and neither the HTTP nor the
WebSocket cycle ever runs. -/
theorem call_lifespan_on_startup_failure_aborts (m : Mangum) (env : Env)
    (hon : m.lifespan = "on") (hfail : env.startupOk = false) :
    (m.call env).2 = Except.error (Err.lifespanFailure "Lifespan failure in startup.") ∧
    (∀ b, TraceEv.httpCycleRun b ∉ (m.call env).1) ∧
    (∀ t c b, TraceEv.wsCycleRun t c b ∉ (m.call env).1) := by
  have hoff : m.lifespan ≠ "off" := by rw [hon]; decide
  have herr : (LifespanCycle.enter m.lifespan env.startupOk).2 =
      Except.error (Err.lifespanFailure "Lifespan failure in startup.") := by
    simp [LifespanCycle.enter, hon, hfail]
  rw [Mangum.call_enter_error m env _ hoff herr]
  exact ⟨rfl, fun b => by simp, fun t c b => by simp⟩

/-- C5 witness: lifespan "on" with a failing startup fails with the lifespan
error and runs no HTTP cycle. -/
theorem call_lifespan_on_startup_failure_aborts_witness :
    mOnFix.lifespan = "on" ∧ envFailFix.startupOk = false ∧
    (mOnFix.call envFailFix).2 =
      Except.error (Err.lifespanFailure "Lifespan failure in startup.") ∧
    TraceEv.httpCycleRun "reqbody" ∉ (mOnFix.call envFailFix).1 :=
  ⟨rfl, rfl,
   (call_lifespan_on_startup_failure_aborts mOnFix envFailFix rfl rfl).1,
   (call_lifespan_on_startup_failure_aborts mOnFix envFailFix rfl rfl).2.1 "reqbody"⟩

/-- C7: a WebSocket trigger handled while no dsn connection string is
configured fails with the fatal backend `ConfigurationError`, and the
WebSocket cycle never runs (stated on every path that reaches the dispatch
body: lifespan "off" or a successful lifespan entry). -/
theorem call_ws_without_dsn_fails (m : Mangum) (env : Env) (h : Handler) (c : String)
    (hev : env.event = RawEvent.recognized h)
    (hr : h.request = CanonicalRequest.ws c) (hdsn : m.dsn = none)
    (hlife : m.lifespan = "off" ∨
      (LifespanCycle.enter m.lifespan env.startupOk).2 = Except.ok ()) :
    (m.call env).2 =
      Except.error
        (Err.configurationError
          "A dsn connection string is required to configure a WebSocket backend") ∧
    (∀ t c b, TraceEv.wsCycleRun t c b ∉ (m.call env).1) := by
  have hw : WebSocket.create m.dsn
      (pyOrStr m.api_gateway_endpoint_url h.api_gateway_endpoint_url)
      m.api_gateway_region_name m.connect_hook m.disconnect_hook =
      Except.error
        (Err.configurationError
          "A dsn connection string is required to configure a WebSocket backend") := by
    rw [hdsn]; rfl
  have hd := Mangum.dispatch_ws_error m env h c _ hev hr hw
  rcases hlife with hoff | hok
  · rw [Mangum.call_off m env hoff, hd]
    exact ⟨rfl, fun t c b => by simp⟩
  · by_cases hoff : m.lifespan = "off"
    · rw [Mangum.call_off m env hoff, hd]
      exact ⟨rfl, fun t c b => by simp⟩
    · rw [Mangum.call_enter_ok m env hoff hok, hd]
      refine ⟨rfl, fun t c b => ?_⟩
      simp [LifespanCycle.exitEvents]

/-- C7 witness: a WebSocket trigger with no dsn configured fails with the
backend `ConfigurationError` and never runs the WebSocket cycle. -/
theorem call_ws_without_dsn_fails_witness :
    mNoDsnFix.dsn = none ∧
    (mNoDsnFix.call envWsFix).2 =
      Except.error
        (Err.configurationError
          "A dsn connection string is required to configure a WebSocket backend") ∧
    TraceEv.wsCycleRun "MESSAGE" "abc" "frame" ∉ (mNoDsnFix.call envWsFix).1 :=
  ⟨rfl,
   (call_ws_without_dsn_fails mNoDsnFix envWsFix hWsFix "abc" rfl rfl rfl (Or.inr rfl)).1,
   (call_ws_without_dsn_fails mNoDsnFix envWsFix hWsFix "abc" rfl rfl rfl
     (Or.inr rfl)).2 "MESSAGE" "abc" "frame"⟩

/-- C8 counterexample: the endpoint is resolved by Python `or`
(src/mangum/adapter.py, lines 107-109), which also falls through on a
configured but empty string.  With `api_gateway_endpoint_url = some ""` - a
value that is configured, hence not absent - the backend handle is still
built with the endpoint derived from the handler, refuting "only when it is
absent is the endpoint derived from the trigger's handler used". -/
theorem call_ws_endpoint_only_when_absent_counterexample :
    mEmptyUrlFix.api_gateway_endpoint_url = some "" ∧
    mEmptyUrlFix.api_gateway_endpoint_url ≠ none ∧
    TraceEv.wsBackendInit "wss://derived.example" ∈ (mEmptyUrlFix.call envWsFix).1 ∧
    TraceEv.wsBackendInit "" ∉ (mEmptyUrlFix.call envWsFix).1 := by decide

/-- C8 (amended): for every WebSocket invocation, the Session Store handle is
built with the endpoint resolved by Python `or`: a configured non-empty
`api_gateway_endpoint_url` wins, and only when it is absent or empty is the
endpoint derived from the trigger's handler used. -/
theorem call_ws_endpoint_selection (m : Mangum) (env : Env) (h : Handler) (c : String)
    (hev : env.event = RawEvent.recognized h)
    (hr : h.request = CanonicalRequest.ws c)
    (hlife : m.lifespan = "off" ∨
      (LifespanCycle.enter m.lifespan env.startupOk).2 = Except.ok ()) :
    TraceEv.wsBackendInit (pyOrStr m.api_gateway_endpoint_url h.api_gateway_endpoint_url)
        ∈ (m.call env).1 ∧
    (∀ s, m.api_gateway_endpoint_url = some s → s ≠ "" →
      pyOrStr m.api_gateway_endpoint_url h.api_gateway_endpoint_url = s) ∧
    ((m.api_gateway_endpoint_url = none ∨ m.api_gateway_endpoint_url = some "") →
      pyOrStr m.api_gateway_endpoint_url h.api_gateway_endpoint_url =
        h.api_gateway_endpoint_url) := by
  refine ⟨?_, ?_, ?_⟩
  · rcases hw : WebSocket.create m.dsn
        (pyOrStr m.api_gateway_endpoint_url h.api_gateway_endpoint_url)
        m.api_gateway_region_name m.connect_hook m.disconnect_hook with e | w
    · have hd := Mangum.dispatch_ws_error m env h c e hev hr hw
      rcases hlife with hoff | hok
      · rw [Mangum.call_off m env hoff, hd]; simp
      · by_cases hoff : m.lifespan = "off"
        · rw [Mangum.call_off m env hoff, hd]; simp
        · rw [Mangum.call_enter_ok m env hoff hok, hd]; simp
    · have hd := Mangum.dispatch_ws_ok m env h c w hev hr hw
      rcases hlife with hoff | hok
      · rw [Mangum.call_off m env hoff, hd]; simp
      · by_cases hoff : m.lifespan = "off"
        · rw [Mangum.call_off m env hoff, hd]; simp
        · rw [Mangum.call_enter_ok m env hoff hok, hd]; simp
  · intro s hs hne
    rw [hs]
    simp [pyOrStr, hne]
  · intro habs
    rcases habs with habs | habs <;> rw [habs] <;> simp [pyOrStr]

/-- C8 witness: with a configured non-empty endpoint the backend handle is
built with exactly that endpoint. -/
theorem call_ws_endpoint_selection_witness :
    TraceEv.wsBackendInit
        (pyOrStr mCfgUrlFix.api_gateway_endpoint_url hWsFix.api_gateway_endpoint_url)
        ∈ (mCfgUrlFix.call envWsFix).1 ∧
    pyOrStr mCfgUrlFix.api_gateway_endpoint_url hWsFix.api_gateway_endpoint_url =
      "https://cfg.example" :=
  ⟨(call_ws_endpoint_selection mCfgUrlFix envWsFix hWsFix "abc" rfl rfl (Or.inl rfl)).1,
   (call_ws_endpoint_selection mCfgUrlFix envWsFix hWsFix "abc" rfl rfl (Or.inl rfl)).2.1
     "https://cfg.example" rfl (by decide)⟩
